import Mathlib

/-!
# Verification of the Taskify disruption-response core

Shallow embedding of the Impact Analyzer, Decision Engine and Ticket
Formatter of the Taskify repository
(`backend/services/impact_service.py`, `backend/services/decision_engine.py`,
`backend/services/action_service.py`, `backend/services/data_service.py`,
`backend/models.py`), together with theorems settling the specification
claims about them.

Modelling conventions:
* Python floats are modelled as rationals (`ℚ`); all float arithmetic in the
  embedded code is multiplication/addition of decimal constants, which is
  exact at the granularity the claims discuss.
* Python `Optional[int]` is `Option Int`.  Python truthiness of an optional
  integer (`if x:` is false for both `None` and `0`) is modelled by
  `dur_truthy`.
* The SQLAlchemy ticket table is modelled as a `List ActionTicketDB` in
  insertion order; `query(...).first()` is `List.find?`.  Because
  `ticket_db_to_model` raises Pydantic validation errors *after* the
  service has already committed (`db.commit` precedes the conversion), the
  ticket operations return a pair of the raised-or-returned response and
  the store state after the call, so committed effects persist across a
  raising return.
* `datetime` columns (`created_at`, note timestamps) are not modelled: no
  claim mentions them and they carry no logic.
* Exceptions (`ValueError` raised by catalog lookups, Python built-in errors)
  are modelled with `Except String`.
-/

namespace Taskify

/-- `models.CargoType` (`backend/models.py`). -/
inductive CargoType
  | perishable
  | standard
  | bulk
  | hazardous
deriving DecidableEq, Repr

/-- `models.ActionType` (`backend/models.py`). -/
inductive ActionType
  | reroute
  | delay
  | escalate
deriving DecidableEq, Repr

/-- `models.Route` (`backend/models.py`).  `estimated_days` is a Python int. -/
structure Route where
  id : String
  name : String
  origin : String
  destination : String
  via_points : List String
  estimated_days : Int
  is_active : Bool := true
deriving DecidableEq, Repr

/-- `models.Shipment` (`backend/models.py`). -/
structure Shipment where
  id : String
  route_id : String
  cargo_type : CargoType
  priority : Int
  delay_tolerance_hours : Int
  cost_increase_tolerance_percent : ℚ
  current_status : String := "in_transit"
  destination : String
deriving DecidableEq, Repr

/-- `models.Disruption` (`backend/models.py`), restricted to the fields the
analysed core reads.  `severity` is kept as a string because
`calculate_severity_score` lowercases and string-matches it. -/
structure Disruption where
  id : String
  location : String
  severity : String
  estimated_duration_hours : Option Int := none
deriving DecidableEq, Repr

/-- `models.Decision` (`backend/models.py`). -/
structure Decision where
  shipment_id : String
  action : ActionType
  reasoning : String
  estimated_cost_impact : Option ℚ := none
  estimated_delay_hours : Option Int := none
  alternative_route_id : Option String := none
  confidence_score : ℚ
deriving DecidableEq, Repr

/-- `models.OperatorResponse` (`backend/models.py`). -/
structure OperatorResponse where
  disruption_id : String
  allow_reroute : Bool := true
  max_cost_increase_percent : ℚ
  prioritize_high_priority : Bool := true
  additional_notes : Option String := none
deriving DecidableEq, Repr

/-- `data_service.get_route_by_id`: dictionary lookup raising
`ValueError(f"Route {route_id} not found")` on a missing id.  The catalog
dictionary is modelled as a list of routes in insertion order. -/
def get_route_by_id (routes : List Route) (route_id : String) : Except String Route :=
  match routes.find? (fun r => r.id == route_id) with
  | some r => Except.ok r
  | none => Except.error ("Route " ++ route_id ++ " not found")

/-- `data_service.get_shipment_by_id`. -/
def get_shipment_by_id (shipments : List Shipment) (shipment_id : String) :
    Except String Shipment :=
  match shipments.find? (fun s => s.id == shipment_id) with
  | some s => Except.ok s
  | none => Except.error ("Shipment " ++ shipment_id ++ " not found")

/-- `impact_service.get_alternative_routes`: all active routes with the given
origin and destination whose id is not excluded. -/
def get_alternative_routes (routes : List Route) (origin destination : String)
    (exclude_route_ids : List String) : List Route :=
  routes.filter fun r =>
    r.origin == origin && r.destination == destination &&
      !(exclude_route_ids.contains r.id) && r.is_active

/-! ## Decision engine (`backend/services/decision_engine.py`) -/

/-- Python truthiness of an `Optional[int]`: `None` and `0` are falsy,
every other integer (negative included) is truthy. -/
def dur_truthy : Option Int → Bool
  | some n => n != 0
  | none => false

/-- The integer carried by an `Optional[int]`, read only under a
`dur_truthy` guard (mirroring how the source dereferences the optional
after an `if duration and ...:` check). -/
def dur_val : Option Int → Int
  | some n => n
  | none => 0

/-- `min(alternatives, key=lambda r: r.estimated_days)` on a non-empty list
`first :: rest`: Python's `min` keeps the first element attaining the
minimum key. -/
def best_alt : Route → List Route → Route
  | best, [] => best
  | best, r :: rs => best_alt (if r.estimated_days < best.estimated_days then r else best) rs

/-- `decision_engine._create_reroute_decision`.  Raises (`Except.error`) when
`alternatives` is empty, as Python `min` does on an empty sequence; the
callers only reach it under a non-emptiness guard. -/
def create_reroute_decision (routes : List Route) (shipment : Shipment)
    (alternatives : List Route) (reason : String) : Except String Decision :=
  match alternatives with
  | [] => Except.error "min() arg is an empty sequence"
  | a :: rest =>
    match get_route_by_id routes shipment.route_id with
    | Except.error e => Except.error e
    | Except.ok current_route =>
      let best := best_alt a rest
      let extra_days : Int := max 0 (best.estimated_days - current_route.estimated_days)
      Except.ok
        { shipment_id := shipment.id
          action := ActionType.reroute
          reasoning := reason
          estimated_cost_impact := some ((extra_days : ℚ) * 10)
          estimated_delay_hours := some (extra_days * 24)
          alternative_route_id := some best.id
          confidence_score := 9/10 }

/-- `decision_engine._create_delay_decision`. -/
def create_delay_decision (shipment : Shipment) (delay_hours : Int)
    (reason : String) : Decision :=
  { shipment_id := shipment.id
    action := ActionType.delay
    reasoning := reason
    estimated_cost_impact := some 0
    estimated_delay_hours := some delay_hours
    alternative_route_id := none
    confidence_score := 17/20 }

/-- `decision_engine._create_escalate_decision`. -/
def create_escalate_decision (shipment : Shipment) (reason : String) : Decision :=
  { shipment_id := shipment.id
    action := ActionType.escalate
    reasoning := reason
    estimated_cost_impact := none
    estimated_delay_hours := none
    alternative_route_id := none
    confidence_score := 19/20 }

/-- The rule cascade of `decision_engine.make_decision` after the current
route has been resolved and the alternative list computed (factored out of
`make_decision` so that theorems can reason about the branches directly).
The nested Python `if` blocks without `else` (perishable special case) fall
through to the priority cascade, which is rendered here as a single
conjunction guard followed by the cascade. -/
def make_decision_body (routes : List Route) (shipment : Shipment)
    (operator_response : OperatorResponse) (disruption_duration_hours : Option Int)
    (alternatives : List Route) : Except String Decision :=
    -- Special case: perishable goods with long delay
    if shipment.cargo_type = CargoType.perishable ∧
        dur_truthy disruption_duration_hours = true ∧
        48 < dur_val disruption_duration_hours ∧
        alternatives ≠ [] ∧ operator_response.allow_reroute = true then
      create_reroute_decision routes shipment alternatives
        "Perishable cargo requires immediate rerouting to prevent spoilage"
    -- High priority shipments (>= 8)
    else if 8 ≤ shipment.priority then
      if shipment.delay_tolerance_hours < 24 then
        if alternatives ≠ [] ∧ operator_response.allow_reroute = true then
          create_reroute_decision routes shipment alternatives
            "High priority shipment with low delay tolerance requires immediate rerouting"
        else
          Except.ok (create_escalate_decision shipment
            "High priority shipment needs rerouting but no alternatives available")
      else
        if dur_truthy disruption_duration_hours = true ∧
            dur_val disruption_duration_hours ≤ shipment.delay_tolerance_hours then
          Except.ok (create_delay_decision shipment (dur_val disruption_duration_hours)
            "High priority shipment can tolerate the expected delay duration")
        else
          if alternatives ≠ [] ∧ operator_response.allow_reroute = true then
            create_reroute_decision routes shipment alternatives
              "Disruption exceeds delay tolerance, rerouting required"
          else
            Except.ok (create_escalate_decision shipment
              "Disruption exceeds delay tolerance but no reroute options available")
    -- Medium priority shipments (4-7)
    else if 4 ≤ shipment.priority ∧ shipment.priority ≤ 7 then
      if shipment.delay_tolerance_hours < 12 then
        if alternatives ≠ [] ∧ operator_response.allow_reroute = true then
          create_reroute_decision routes shipment alternatives
            "Medium priority shipment with tight delay tolerance requires rerouting"
        else
          Except.ok (create_escalate_decision shipment
            "Tight delay tolerance but no reroute options available")
      else
        -- the source sets estimated_cost_impact = 0.0 and compares it with
        -- the shipment's cost tolerance before delaying
        if dur_truthy disruption_duration_hours = true ∧
            dur_val disruption_duration_hours ≤ shipment.delay_tolerance_hours ∧
            (0 : ℚ) ≤ shipment.cost_increase_tolerance_percent then
          Except.ok (create_delay_decision shipment (dur_val disruption_duration_hours)
            "Medium priority shipment can absorb delay within cost constraints")
        else
          Except.ok (create_escalate_decision shipment
            "Delay exceeds tolerance and rerouting may exceed cost constraints")
    -- Low priority shipments (< 4)
    else
      if dur_truthy disruption_duration_hours = true ∧
          168 < dur_val disruption_duration_hours then
        Except.ok (create_escalate_decision shipment
          "Extended delay exceeds acceptable threshold even for low priority")
      else
        -- `disruption_duration_hours or 48`
        Except.ok (create_delay_decision shipment
          (if dur_truthy disruption_duration_hours = true
            then dur_val disruption_duration_hours else 48)
          "Low priority shipment scheduled for delay until disruption resolves")

/-- `decision_engine.make_decision`: resolve the shipment's current route
(propagating the `ValueError` of a missing route id), compute the
alternatives from the current route's origin and the shipment's destination
excluding the current route, then run the rule cascade. -/
def make_decision (routes : List Route) (shipment : Shipment)
    (operator_response : OperatorResponse) (disruption_duration_hours : Option Int) :
    Except String Decision :=
  match get_route_by_id routes shipment.route_id with
  | Except.error e => Except.error e
  | Except.ok current_route =>
    make_decision_body routes shipment operator_response disruption_duration_hours
      (get_alternative_routes routes current_route.origin shipment.destination
        [shipment.route_id])

/-- Loop body of `decision_engine.process_disruption_decisions`: decisions
are accumulated front-to-back and the first exception aborts the whole
call, discarding the partial list. -/
def decisions_loop (routes : List Route) (operator_response : OperatorResponse)
    (disruption_duration_hours : Int) : List Shipment → Except String (List Decision)
  | [] => Except.ok []
  | s :: rest =>
    match make_decision routes s operator_response (some disruption_duration_hours) with
    | Except.error e => Except.error e
    | Except.ok d =>
      match decisions_loop routes operator_response disruption_duration_hours rest with
      | Except.error e => Except.error e
      | Except.ok ds => Except.ok (d :: ds)

/-- `decision_engine.process_disruption_decisions` (the `disruption_id`
argument is only used for logging in the source). -/
def process_disruption_decisions (routes : List Route) (disruption_id : String)
    (affected_shipments : List Shipment) (operator_response : OperatorResponse)
    (disruption_duration_hours : Int) : Except String (List Decision) :=
  decisions_loop routes operator_response disruption_duration_hours affected_shipments

/-- The alternatives `make_decision` computes for a shipment, as a standalone
abbreviation (empty when the shipment's route does not resolve). -/
def shipment_alternatives (routes : List Route) (shipment : Shipment) : List Route :=
  match get_route_by_id routes shipment.route_id with
  | Except.ok current_route =>
    get_alternative_routes routes current_route.origin shipment.destination
      [shipment.route_id]
  | Except.error _ => []

/-- The guard of the perishable special case of `make_decision`, lifted out
so that claims can refer to "the perishable override fires". -/
def perishable_override_fires (routes : List Route) (shipment : Shipment)
    (operator_response : OperatorResponse) (disruption_duration_hours : Option Int) :
    Prop :=
  shipment.cargo_type = CargoType.perishable ∧
    dur_truthy disruption_duration_hours = true ∧
    48 < dur_val disruption_duration_hours ∧
    shipment_alternatives routes shipment ≠ [] ∧
    operator_response.allow_reroute = true

/-! ## Impact analyzer (`backend/services/impact_service.py`) -/

/-- Python's substring test `needle in hay` on strings: contiguous
(case-sensitive) containment of the character sequence. -/
def substr_in (needle hay : String) : Bool :=
  decide (needle.data <:+: hay.data)

/-- The route-matching test of `impact_service.analyze_disruption_impact`
(lines 39-51): `via_match` is computed from the via-points, then forced to
`True` by the "Pacific" keyword rule, and the route is affected when origin
or destination occurs in the location, the location occurs in the route
name, or `via_match` holds. -/
def route_affected (route : Route) (location : String) : Bool :=
  let via_match := route.via_points.any fun point => substr_in point location
  let via_match :=
    if substr_in "Pacific" location && route.via_points.contains "Pacific Ocean" then
      true
    else via_match
  substr_in route.origin location || substr_in route.destination location ||
    substr_in location route.name || via_match

/-- The affected-route list computed by `analyze_disruption_impact`. -/
def affected_routes (routes : List Route) (disruption : Disruption) : List Route :=
  routes.filter fun route => route_affected route disruption.location

/-- `affected_route_ids = [r.id for r in affected_routes]`. -/
def affected_route_ids (routes : List Route) (disruption : Disruption) : List String :=
  (affected_routes routes disruption).map Route.id

/-- The affected-shipment list computed by `analyze_disruption_impact`:
shipments whose `route_id` is among the affected route ids. -/
def affected_shipments (routes : List Route) (shipments : List Shipment)
    (disruption : Disruption) : List Shipment :=
  shipments.filter fun shipment =>
    (affected_route_ids routes disruption).contains shipment.route_id

/-- `impact_service.calculate_severity_score`.  The `high_priority_count`
argument is a count, hence a natural number. -/
def calculate_severity_score (disruption : Disruption)
    (affected : List Shipment) (high_priority_count : Nat) : ℚ :=
  let sev := disruption.severity.toLower
  let base_score : ℚ :=
    if sev = "low" then 2
    else if sev = "medium" then 5
    else if sev = "high" then 15/2
    else if sev = "critical" then 9
    else 5
  let shipment_multiplier : ℚ :=
    if 10 < affected.length then 3/2
    else if 5 < affected.length then 13/10
    else 1
  let priority_multiplier : ℚ :=
    if 0 < high_priority_count then 1 + (high_priority_count : ℚ) * (1/10)
    else 1
  min (base_score * shipment_multiplier * priority_multiplier) 10

/-! ## Ticket formatter (`backend/services/action_service.py`) -/

/-- A row of the `ActionTicketDB` SQLAlchemy table, restricted to the columns
the service writes (`created_at`/`updated_at` timestamps are not modelled). -/
structure ActionTicketDB where
  id : String
  disruption_id : String
  shipment_id : String
  action_type : String
  explanation : String
  destination : String
  estimated_delay : Option String
  priority : String
  created_by : String
  status : String
  notes : Option String := none
deriving DecidableEq, Repr

/-- `models.TicketStatus` (`backend/models.py`). -/
inductive TicketStatus
  | pending
  | approved
  | in_progress
  | completed
  | rejected
deriving DecidableEq, Repr

/-- `models.ActionTicket` (`backend/models.py`), restricted to the fields the
service passes (timestamps not modelled).  The `decision` field is declared
`decision: Decision` in the source — a *required*, non-Optional Pydantic
field — so it is required here too. -/
structure ActionTicket where
  id : String
  disruption_id : String
  shipment_id : String
  destination : String
  action : ActionType
  decision : Decision
  explanation : String
  status : TicketStatus
deriving DecidableEq, Repr

/-- `decision.action.value`. -/
def action_value : ActionType → String
  | ActionType.reroute => "reroute"
  | ActionType.delay => "delay"
  | ActionType.escalate => "escalate"

/-- Inverse of `action_value`: `none` for a string outside the enum. -/
def actiontype_of_value (s : String) : Option ActionType :=
  if s = "reroute" then some ActionType.reroute
  else if s = "delay" then some ActionType.delay
  else if s = "escalate" then some ActionType.escalate
  else none

/-- `ActionType(stored_string)`: the Python enum constructor raises
`ValueError` on a string outside the enum. -/
def validate_actiontype (s : String) : Except String ActionType :=
  match actiontype_of_value s with
  | some a => Except.ok a
  | none => Except.error ("'" ++ s ++ "' is not a valid ActionType")

/-- Pydantic validation of the required field `decision: Decision` of
`models.ActionTicket`: the field has no `Optional` annotation and no
default, so a `None` argument is rejected with a `ValidationError`. -/
def validate_required_decision (d : Option Decision) : Except String Decision :=
  match d with
  | some dec => Except.ok dec
  | none =>
    Except.error
      "1 validation error for ActionTicket: decision none is not an allowed value"

/-- Pydantic coercion of the stored status string into
`models.TicketStatus`: rejects strings outside the enum. -/
def validate_ticketstatus (s : String) : Except String TicketStatus :=
  if s = "pending" then Except.ok TicketStatus.pending
  else if s = "approved" then Except.ok TicketStatus.approved
  else if s = "in_progress" then Except.ok TicketStatus.in_progress
  else if s = "completed" then Except.ok TicketStatus.completed
  else if s = "rejected" then Except.ok TicketStatus.rejected
  else Except.error ("'" ++ s ++ "' is not a valid TicketStatus")

/-- `action_service.ticket_db_to_model`: evaluates the
`ActionType(ticket_db.action_type)` enum call, then constructs
`models.ActionTicket` passing `decision=None` — which Pydantic rejects,
because `decision: Decision` (models.py) is a required non-Optional field.
Hence the function raises on *every* call and never returns a ticket.
(Pydantic reports all invalid fields in one `ValidationError`; this model
reports the `decision` failure, which occurs on every call regardless of
the other fields.) -/
def ticket_db_to_model (t : ActionTicketDB) : Except String ActionTicket := do
  let action ← validate_actiontype t.action_type
  let decision ← validate_required_decision none
  let status ← validate_ticketstatus t.status
  Except.ok
    { id := t.id
      disruption_id := t.disruption_id
      shipment_id := t.shipment_id
      destination := t.destination
      action := action
      decision := decision
      explanation := t.explanation
      status := status }

/-- Every call of `ticket_db_to_model` raises: the `decision=None` argument
never passes validation of the required field. -/
theorem ticket_db_to_model_raises (t : ActionTicketDB) :
    ∃ e, ticket_db_to_model t = Except.error e := by
  unfold ticket_db_to_model
  cases h : validate_actiontype t.action_type with
  | error e => exact ⟨e, rfl⟩
  | ok a => exact ⟨_, rfl⟩

/-- `f"{decision.estimated_delay_hours} hours" if decision.estimated_delay_hours
else None`: Python truthiness again makes both `None` and `0` produce `None`. -/
def est_delay_str : Option Int → Option String
  | some n => if n = 0 then none else some (toString n ++ " hours")
  | none => none

/-- `.value.title()` applied to a cargo enum value. -/
def cargo_title : CargoType → String
  | CargoType.perishable => "Perishable"
  | CargoType.standard => "Standard"
  | CargoType.bulk => "Bulk"
  | CargoType.hazardous => "Hazardous"

/-- One-decimal rendering of a rational, modelling the `:.1f` float format
(the engine only ever formats integral percentages here, where the two
agree; general rounding-mode differences are irrelevant to the claims). -/
def fmt_one_dec (q : ℚ) : String :=
  let scaled : Int := Int.floor (q * 10)
  toString (scaled / 10) ++ "." ++ toString (scaled % 10)

/-- `f"TICKET-{(ticket_count + 1):03d}"`: zero-padded to width 3. -/
def pad3 (n : Nat) : String :=
  let s := toString n
  if 3 ≤ s.length then s else String.mk (List.replicate (3 - s.length) '0') ++ s

/-- `action_service.generate_explanation`.  The narrative templates are
reproduced at the structural level: every lookup the source performs (and
hence every way it can raise) is performed here, and the interpolated values
are rendered with the helpers above. -/
def generate_explanation (routes : List Route) (shipments : List Shipment)
    (decision : Decision) : Except String String := do
  let shipment ← get_shipment_by_id shipments decision.shipment_id
  let details :=
    "**Shipment Details:**\n" ++
    "- Priority: " ++ toString shipment.priority ++ "/10\n" ++
    "- Cargo Type: " ++ cargo_title shipment.cargo_type ++ "\n" ++
    "- Delay Tolerance: " ++ toString shipment.delay_tolerance_hours ++ " hours\n"
  match decision.action with
  | ActionType.reroute => do
    -- `get_route_by_id(...) if decision.alternative_route_id else None`:
    -- an absent or empty id (falsy string) skips the lookup
    let alt_route : Option Route ←
      match decision.alternative_route_id with
      | some rid =>
        if rid = "" then pure none
        else (get_route_by_id routes rid).map some
      | none => pure none
    let alt_block ←
      match alt_route with
      | some alt => do
        -- formatting `None` with `:.1f` would raise in the source
        let cost_str ←
          match decision.estimated_cost_impact with
          | some q => pure (fmt_one_dec q)
          | none => Except.error "unsupported format string passed to NoneType"
        pure ("**Alternative Route:**\n" ++
          "- Route: " ++ alt.name ++ "\n" ++
          "- Estimated Duration: " ++ toString alt.estimated_days ++ " days\n" ++
          "- Estimated Cost Impact: +" ++ cost_str ++ "%\n" ++
          "- Additional Delay: " ++
            (match decision.estimated_delay_hours with
              | some n => toString n
              | none => "None") ++ " hours\n\n")
      | none => pure ""
    pure ("**Decision: Reroute Shipment " ++ shipment.id ++ "**\n\n" ++
      "We have decided to reroute this shipment because " ++
        decision.reasoning.toLower ++ ".\n\n" ++
      details ++
      "- Cost Tolerance: " ++ toString shipment.cost_increase_tolerance_percent ++
        "%\n\n" ++
      alt_block ++
      "**Action Required:**\n" ++
      "1. Coordinate with logistics team to redirect shipment\n" ++
      "2. Update customer with new ETA\n" ++
      "3. Arrange alternative route documentation\n" ++
      "4. Monitor shipment progress on new route")
  | ActionType.delay =>
    pure ("**Decision: Delay Shipment " ++ shipment.id ++ "**\n\n" ++
      "We have decided to delay this shipment because " ++
        decision.reasoning.toLower ++ ".\n\n" ++
      details ++
      "- Expected Delay: " ++
        (match decision.estimated_delay_hours with
          | some n => toString n
          | none => "None") ++ " hours\n\n" ++
      "**Rationale:**\n" ++
      "The expected delay is within the shipment tolerance of " ++
        toString shipment.delay_tolerance_hours ++
        " hours. This is the most cost-effective option " ++
        "with minimal impact on delivery commitments.\n\n" ++
      "**Action Required:**\n" ++
      "1. Notify customer of expected delay\n" ++
      "2. Update ETA in tracking system\n" ++
      "3. Monitor disruption status for changes\n" ++
      "4. Prepare contingency if delay extends")
  | ActionType.escalate =>
    pure ("**Decision: Escalate Shipment " ++ shipment.id ++ "**\n\n" ++
      "This shipment requires management review because " ++
        decision.reasoning.toLower ++ ".\n\n" ++
      details ++
      "- Cost Tolerance: " ++ toString shipment.cost_increase_tolerance_percent ++
        "%\n\n" ++
      "**Why Escalation:**\n" ++
      "This situation requires human judgment as it involves complex " ++
        "trade-offs between cost, timing, and operational constraints that " ++
        "exceed automated decision parameters.\n\n" ++
      "**Action Required:**\n" ++
      "1. Escalate to logistics manager immediately\n" ++
      "2. Prepare detailed impact analysis\n" ++
      "3. Contact customer for priority clarification\n" ++
      "4. Explore custom solutions with partners")

/-- `action_service.create_action_ticket`.  The duplicate check, ticket-id
generation from the current row count, explanation rendering, insert and
final `ticket_db_to_model` conversion are sequenced exactly as in the
source.  Because `db.add`/`db.commit` happen *before* the conversion (which
always raises — see `ticket_db_to_model_raises`), the insert persists even
though the call raises; exceptions thrown earlier (shipment lookup,
explanation rendering, duplicate-path conversion) leave the store
untouched.  The result is therefore a pair: what the call returns or
raises, and the store state after the call. -/
def create_action_ticket (routes : List Route) (shipments : List Shipment)
    (disruption_id : String) (decision : Decision) (operator_id : String)
    (db : List ActionTicketDB) :
    Except String ActionTicket × List ActionTicketDB :=
  match db.find? (fun t =>
      t.shipment_id == decision.shipment_id && t.disruption_id == disruption_id) with
  | some existing_ticket => (ticket_db_to_model existing_ticket, db)
  | none =>
    match get_shipment_by_id shipments decision.shipment_id with
    | Except.error e => (Except.error e, db)
    | Except.ok shipment =>
      let ticket_id := "TICKET-" ++ pad3 (db.length + 1)
      match generate_explanation routes shipments decision with
      | Except.error e => (Except.error e, db)
      | Except.ok explanation =>
        let ticket_db : ActionTicketDB :=
          { id := ticket_id
            disruption_id := disruption_id
            shipment_id := decision.shipment_id
            action_type := action_value decision.action
            explanation := explanation
            destination := shipment.destination
            estimated_delay := est_delay_str decision.estimated_delay_hours
            priority := toString shipment.priority
            created_by := operator_id
            status := "pending"
            notes := none }
        (ticket_db_to_model ticket_db, db ++ [ticket_db])

/-- In-place update of the first row matching the ticket id (the row the
`query(...).first()` of `update_ticket_status` fetched and mutated). -/
def set_ticket_status : List ActionTicketDB → String → String → List ActionTicketDB
  | [], _, _ => []
  | t :: ts, ticket_id, status =>
    if t.id == ticket_id then { t with status := status } :: ts
    else t :: set_ticket_status ts ticket_id status

/-- `action_service.update_ticket_status`: a `None` result (mapped by the
HTTP layer to a 404 `NotFound`) on an unknown id, without touching the
store; otherwise an unconditional overwrite of the status field, committed
to the store, followed by the `ticket_db_to_model` conversion of the updated
row — which always raises, *after* the commit.  The result pair is what the
call returns or raises (`none` = returned `None`) and the store state after
the call. -/
def update_ticket_status (ticket_id status : String) (db : List ActionTicketDB) :
    Option (Except String ActionTicket) × List ActionTicketDB :=
  match db.find? (fun t => t.id == ticket_id) with
  | none => (none, db)
  | some t =>
    (some (ticket_db_to_model { t with status := status }),
      set_ticket_status db ticket_id status)

/-- A sequence of independent `create_action_ticket` requests against the
shared store: the committed effects of each call persist whether or not the
call raised. -/
def run_creates (routes : List Route) (shipments : List Shipment) :
    List (String × Decision × String) → List ActionTicketDB → List ActionTicketDB
  | [], db => db
  | c :: cs, db =>
    run_creates routes shipments cs
      (create_action_ticket routes shipments c.1 c.2.1 c.2.2 db).2

/-- "At most one ticket per (disruption id, shipment id) pair". -/
def ticket_pairs_unique (db : List ActionTicketDB) : Prop :=
  db.Pairwise fun t u =>
    ¬(t.disruption_id = u.disruption_id ∧ t.shipment_id = u.shipment_id)

/-! ## Helper lemmas about the decision engine -/

theorem best_alt_mem (a : Route) (rs : List Route) : best_alt a rs ∈ a :: rs := by
  induction rs generalizing a with
  | nil => simp [best_alt]
  | cons r rs ih =>
    by_cases hc : r.estimated_days < a.estimated_days
    · have h := ih r
      simp only [best_alt, if_pos hc]
      rcases List.mem_cons.mp h with h1 | h1 <;> simp [h1]
    · have h := ih a
      simp only [best_alt, if_neg hc]
      rcases List.mem_cons.mp h with h1 | h1 <;> simp [h1]

theorem best_alt_le (a : Route) (rs : List Route) :
    ∀ r ∈ a :: rs, (best_alt a rs).estimated_days ≤ r.estimated_days := by
  induction rs generalizing a with
  | nil =>
    intro r hr
    rcases List.mem_cons.mp hr with h1 | h1
    · subst h1; simp [best_alt]
    · simp at h1
  | cons r rs ih =>
    intro x hx
    by_cases hc : r.estimated_days < a.estimated_days
    · have h := ih r
      simp only [best_alt, if_pos hc]
      rcases List.mem_cons.mp hx with h1 | h1
      · subst h1
        exact le_of_lt (lt_of_le_of_lt (h r (by simp)) hc)
      · exact h x h1
    · have h := ih a
      simp only [best_alt, if_neg hc]
      rcases List.mem_cons.mp hx with h1 | h1
      · subst h1; exact h x (by simp)
      · rcases List.mem_cons.mp h1 with h2 | h2
        · subst h2
          exact le_trans (h a (by simp)) (le_of_not_lt hc)
        · exact h x (by simp [h2])

theorem best_alt_first (a : Route) (rs : List Route) :
    (a :: rs).find? (fun r => r.estimated_days == (best_alt a rs).estimated_days)
      = some (best_alt a rs) := by
  induction rs generalizing a with
  | nil => simp [best_alt, List.find?]
  | cons r rs ih =>
    by_cases hc : r.estimated_days < a.estimated_days
    · have hlt : (best_alt r rs).estimated_days < a.estimated_days :=
        lt_of_le_of_lt (best_alt_le r rs r (by simp)) hc
      simp only [best_alt, if_pos hc]
      rw [List.find?_cons_of_neg _ (by simp [ne_of_gt hlt])]
      exact ih r
    · have hle : (best_alt a rs).estimated_days ≤ a.estimated_days :=
        best_alt_le a rs a (by simp)
      simp only [best_alt, if_neg hc]
      by_cases ha : a.estimated_days = (best_alt a rs).estimated_days
      · have h1 : (a :: rs).find?
            (fun x => x.estimated_days == (best_alt a rs).estimated_days) = some a :=
          List.find?_cons_of_pos _ (by simp [ha])
        rw [ih a] at h1
        rw [List.find?_cons_of_pos _ (by simp [ha])]
        exact h1.symm ▸ rfl
      · have h2 := ih a
        rw [List.find?_cons_of_neg _ (by simp [ha])] at h2
        rw [List.find?_cons_of_neg _ (by simp [ha])]
        have hr : ¬ r.estimated_days = (best_alt a rs).estimated_days := by
          intro he
          have h4 : a.estimated_days ≤ (best_alt a rs).estimated_days := by
            rw [← he]; exact le_of_not_lt hc
          exact ha (le_antisymm h4 hle)
        rw [List.find?_cons_of_neg _ (by simp [hr])]
        exact h2

theorem create_reroute_decision_ok {routes : List Route} {s : Shipment}
    {alts : List Route} {reason : String} {d : Decision}
    (h : create_reroute_decision routes s alts reason = Except.ok d) :
    ∃ a rs current, alts = a :: rs ∧
      get_route_by_id routes s.route_id = Except.ok current ∧
      d = { shipment_id := s.id
            action := ActionType.reroute
            reasoning := reason
            estimated_cost_impact :=
              some (((max 0 ((best_alt a rs).estimated_days - current.estimated_days) :
                Int) : ℚ) * 10)
            estimated_delay_hours :=
              some (max 0 ((best_alt a rs).estimated_days - current.estimated_days) * 24)
            alternative_route_id := some (best_alt a rs).id
            confidence_score := 9/10 } := by
  match alts with
  | [] => exact absurd h (by simp [create_reroute_decision])
  | a :: rs =>
    refine ⟨a, rs, ?_⟩
    unfold create_reroute_decision at h
    cases hcur : get_route_by_id routes s.route_id with
    | error e => rw [hcur] at h; exact absurd h (by simp)
    | ok current =>
      rw [hcur] at h
      simp only [Except.ok.injEq] at h
      exact ⟨current, rfl, rfl, h.symm⟩

theorem make_decision_shape {routes : List Route} {s : Shipment}
    {op : OperatorResponse} {dur : Option Int} {d : Decision}
    (h : make_decision routes s op dur = Except.ok d) :
    ∃ current, get_route_by_id routes s.route_id = Except.ok current ∧
      ((∃ reason, create_reroute_decision routes s
          (get_alternative_routes routes current.origin s.destination [s.route_id])
          reason = Except.ok d) ∨
       (∃ k reason, d = create_delay_decision s k reason) ∨
       (∃ reason, d = create_escalate_decision s reason)) := by
  unfold make_decision at h
  cases hcur : get_route_by_id routes s.route_id with
  | error e => rw [hcur] at h; exact absurd h (by simp)
  | ok current =>
    rw [hcur] at h
    refine ⟨current, rfl, ?_⟩
    have h' : make_decision_body routes s op dur
        (get_alternative_routes routes current.origin s.destination [s.route_id])
          = Except.ok d := h
    clear h
    unfold make_decision_body at h'
    split_ifs at h' <;>
      first
        | exact Or.inl ⟨_, h'⟩
        | exact Or.inr (Or.inl ⟨_, _, (Except.ok.inj h').symm⟩)
        | exact Or.inr (Or.inr ⟨_, (Except.ok.inj h').symm⟩)

theorem mem_get_alternative_routes {routes : List Route} {origin destination : String}
    {excl : List String} {r : Route} :
    r ∈ get_alternative_routes routes origin destination excl ↔
      r ∈ routes ∧ r.origin = origin ∧ r.destination = destination ∧
        ¬ r.id ∈ excl ∧ r.is_active = true := by
  simp [get_alternative_routes, List.mem_filter, and_assoc]

/-! ## Shared concrete data for witnesses and counterexamples -/

def demo_route_1 : Route :=
  { id := "ROUTE-001", name := "A to B", origin := "A", destination := "B",
    via_points := [], estimated_days := 5, is_active := true }

def demo_route_2 : Route :=
  { id := "ROUTE-002", name := "A to B alternate", origin := "A", destination := "B",
    via_points := [], estimated_days := 6, is_active := true }

def demo_routes : List Route := [demo_route_1, demo_route_2]

def demo_op : OperatorResponse :=
  { disruption_id := "DIS-001", allow_reroute := true,
    max_cost_increase_percent := 25, prioritize_high_priority := true }

/-- Priority-8 shipment with delay tolerance 24h on `ROUTE-001`. -/
def demo_ship_high : Shipment :=
  { id := "SHIP-001", route_id := "ROUTE-001", cargo_type := CargoType.standard,
    priority := 8, delay_tolerance_hours := 24,
    cost_increase_tolerance_percent := 30, destination := "B" }

/-- Priority-9 perishable shipment with delay tolerance 24h (Scenario A). -/
def demo_ship_perishable : Shipment :=
  { id := "SHIP-002", route_id := "ROUTE-001", cargo_type := CargoType.perishable,
    priority := 9, delay_tolerance_hours := 24,
    cost_increase_tolerance_percent := 30, destination := "B" }

/-- Priority-2 standard shipment (Scenario B / C). -/
def demo_ship_low : Shipment :=
  { id := "SHIP-003", route_id := "ROUTE-001", cargo_type := CargoType.standard,
    priority := 2, delay_tolerance_hours := 240,
    cost_increase_tolerance_percent := 8, destination := "B" }

/-- Priority-2 perishable shipment. -/
def demo_ship_low_perishable : Shipment :=
  { id := "SHIP-004", route_id := "ROUTE-001", cargo_type := CargoType.perishable,
    priority := 2, delay_tolerance_hours := 240,
    cost_increase_tolerance_percent := 8, destination := "B" }

def demo_shipments : List Shipment :=
  [demo_ship_high, demo_ship_perishable, demo_ship_low, demo_ship_low_perishable]

theorem shipment_alternatives_eq {routes : List Route} {s : Shipment} {current : Route}
    (hcur : get_route_by_id routes s.route_id = Except.ok current) :
    shipment_alternatives routes s =
      get_alternative_routes routes current.origin s.destination [s.route_id] := by
  unfold shipment_alternatives
  rw [hcur]

/-! ## Claim theorems -/

/-- Claim C10: every Decision produced by `make_decision` satisfies the field-shape
invariant: an ESCALATE decision carries no cost impact, no delay estimate and
no alternative route; a DELAY decision carries cost impact 0.0 and no
alternative route; and the alternative route id is present exactly when the
action is REROUTE. -/
theorem c10_decision_field_shape (routes : List Route) (s : Shipment)
    (op : OperatorResponse) (dur : Option Int) (d : Decision)
    (h : make_decision routes s op dur = Except.ok d) :
    (d.action = ActionType.escalate →
      d.estimated_cost_impact = none ∧ d.estimated_delay_hours = none ∧
        d.alternative_route_id = none) ∧
    (d.action = ActionType.delay →
      d.estimated_cost_impact = some 0 ∧ d.alternative_route_id = none) ∧
    (d.alternative_route_id.isSome = true ↔ d.action = ActionType.reroute) := by
  obtain ⟨current, hcur, hcase⟩ := make_decision_shape h
  rcases hcase with ⟨reason, hre⟩ | ⟨k, reason, hd⟩ | ⟨reason, hd⟩
  · obtain ⟨a, rs, cur2, halts, hcur2, hd⟩ := create_reroute_decision_ok hre
    subst hd
    simp
  · subst hd
    simp [create_delay_decision]
  · subst hd
    simp [create_escalate_decision]

/-- Decision produced for the C10 witness scenario: low-priority shipment,
10-hour disruption. -/
def demo_low_delay_decision : Decision :=
  create_delay_decision demo_ship_low 10
    "Low priority shipment scheduled for delay until disruption resolves"

/-- Witness for C10 at a concrete input. -/
theorem c10_decision_field_shape_witness :
    (demo_low_delay_decision.action = ActionType.escalate →
      demo_low_delay_decision.estimated_cost_impact = none ∧
        demo_low_delay_decision.estimated_delay_hours = none ∧
        demo_low_delay_decision.alternative_route_id = none) ∧
    (demo_low_delay_decision.action = ActionType.delay →
      demo_low_delay_decision.estimated_cost_impact = some 0 ∧
        demo_low_delay_decision.alternative_route_id = none) ∧
    (demo_low_delay_decision.alternative_route_id.isSome = true ↔
      demo_low_delay_decision.action = ActionType.reroute) :=
  c10_decision_field_shape demo_routes demo_ship_low demo_op (some 10)
    demo_low_delay_decision (by rfl)

/-- Claim C1 counterexample: the claim asserts that a priority-8 shipment with
delay tolerance exactly 24h and any duration ≤ 24h gets DELAY with the
duration as estimated delay.  At duration 0 (0 ≤ 24) the source's truthiness
test `if disruption_duration_hours and ...` treats the duration as absent
and falls through to the reroute branch: the decision is REROUTE, not
DELAY. -/
theorem c1_counterexample :
    (make_decision demo_routes demo_ship_high demo_op (some 0)).map Decision.action
        = Except.ok ActionType.reroute ∧
      ActionType.reroute ≠ ActionType.delay := by
  exact ⟨rfl, by simp⟩

/-- Claim C1 (amended): for every shipment with priority ≥ 8 whose delay tolerance
is below 24h, `make_decision` yields REROUTE or ESCALATE and never DELAY,
for every duration, with REROUTE only when the operator allows rerouting and
alternatives exist; and with delay tolerance exactly 24h and any *specified,
nonzero* duration ≤ 24h it yields DELAY with estimated delay equal to the
duration (the source treats a zero duration like an unspecified one). -/
theorem c1_high_priority_boundary (routes : List Route) (s : Shipment)
    (op : OperatorResponse) (dur : Option Int) (d : Decision)
    (hp : 8 ≤ s.priority)
    (h : make_decision routes s op dur = Except.ok d) :
    (s.delay_tolerance_hours < 24 →
      d.action ≠ ActionType.delay ∧
        (d.action = ActionType.reroute ∨ d.action = ActionType.escalate) ∧
        (d.action = ActionType.reroute →
          op.allow_reroute = true ∧ shipment_alternatives routes s ≠ []) ∧
        (shipment_alternatives routes s ≠ [] → op.allow_reroute = true →
          d.action = ActionType.reroute)) ∧
    (∀ n : Int, s.delay_tolerance_hours = 24 → dur = some n → n ≠ 0 → n ≤ 24 →
      d.action = ActionType.delay ∧ d.estimated_delay_hours = some n) := by
  unfold make_decision at h
  cases hcur : get_route_by_id routes s.route_id with
  | error e => rw [hcur] at h; exact absurd h (by simp)
  | ok current =>
    rw [hcur] at h
    have h' : make_decision_body routes s op dur
        (get_alternative_routes routes current.origin s.destination [s.route_id])
          = Except.ok d := h
    clear h
    rw [shipment_alternatives_eq hcur]
    set alts := get_alternative_routes routes current.origin s.destination [s.route_id]
      with halts
    constructor
    · intro htol
      unfold make_decision_body at h'
      by_cases hg1 : s.cargo_type = CargoType.perishable ∧ dur_truthy dur = true ∧
          48 < dur_val dur ∧ alts ≠ [] ∧ op.allow_reroute = true
      · rw [if_pos hg1] at h'
        obtain ⟨a, rs, cur2, ha, hcur2, hd⟩ := create_reroute_decision_ok h'
        subst hd
        exact ⟨by simp, Or.inl rfl, fun _ => ⟨hg1.2.2.2.2, hg1.2.2.2.1⟩,
          fun _ _ => rfl⟩
      · rw [if_neg hg1, if_pos hp, if_pos htol] at h'
        by_cases hg4 : alts ≠ [] ∧ op.allow_reroute = true
        · rw [if_pos hg4] at h'
          obtain ⟨a, rs, cur2, ha, hcur2, hd⟩ := create_reroute_decision_ok h'
          subst hd
          exact ⟨by simp, Or.inl rfl, fun _ => ⟨hg4.2, hg4.1⟩, fun _ _ => rfl⟩
        · rw [if_neg hg4] at h'
          have hd := (Except.ok.inj h').symm
          subst hd
          exact ⟨by simp [create_escalate_decision], Or.inr rfl,
            by simp [create_escalate_decision],
            fun ha hb => absurd ⟨ha, hb⟩ hg4⟩
    · intro n htol hdur hn hle
      subst hdur
      have htr : dur_truthy (some n) = true := by simp [dur_truthy, hn]
      unfold make_decision_body at h'
      rw [if_neg (by rintro ⟨-, -, h48, -⟩; simp [dur_val] at h48; omega)] at h'
      rw [if_pos hp, if_neg (by omega)] at h'
      rw [if_pos (by exact ⟨htr, by simp [dur_val]; omega⟩)] at h'
      have hd := (Except.ok.inj h').symm
      subst hd
      exact ⟨rfl, by simp [create_delay_decision, dur_val]⟩

/-- Decision produced for the C1 witness scenario: the priority-8,
tolerance-24 shipment with a 10-hour disruption. -/
def demo_delay_10 : Decision :=
  create_delay_decision demo_ship_high 10
    "High priority shipment can tolerate the expected delay duration"

/-- Witness for the C1 theorem: the priority-8, tolerance-24 shipment with a
10-hour disruption gets DELAY for 10 hours; with tolerance 23 the same
theorem forbids DELAY. -/
theorem c1_high_priority_boundary_witness :
    (demo_ship_high.delay_tolerance_hours < 24 →
      demo_delay_10.action ≠ ActionType.delay ∧
        (demo_delay_10.action = ActionType.reroute ∨
          demo_delay_10.action = ActionType.escalate) ∧
        (demo_delay_10.action = ActionType.reroute →
          demo_op.allow_reroute = true ∧
            shipment_alternatives demo_routes demo_ship_high ≠ []) ∧
        (shipment_alternatives demo_routes demo_ship_high ≠ [] →
          demo_op.allow_reroute = true →
          demo_delay_10.action = ActionType.reroute)) ∧
    (∀ n : Int, demo_ship_high.delay_tolerance_hours = 24 → (some 10 : Option Int) = some n →
      n ≠ 0 → n ≤ 24 →
      demo_delay_10.action = ActionType.delay ∧
        demo_delay_10.estimated_delay_hours = some n) :=
  c1_high_priority_boundary demo_routes demo_ship_high demo_op (some 10)
    demo_delay_10 (by norm_num [demo_ship_high]) (by rfl)

/-- Claim C2 counterexample: the claim quotes the reason as "perishable cargo
requires immediate rerouting to prevent spoilage", but at the claim's own
Scenario-A input (perishable, duration 72h > 48h, alternatives exist,
rerouting allowed) the decision's reasoning string is capitalized
differently: "Perishable cargo ...". -/
theorem c2_counterexample :
    (make_decision demo_routes demo_ship_perishable demo_op (some 72)).map
        Decision.reasoning
      = Except.ok "Perishable cargo requires immediate rerouting to prevent spoilage" ∧
    "Perishable cargo requires immediate rerouting to prevent spoilage" ≠
      "perishable cargo requires immediate rerouting to prevent spoilage" := by
  exact ⟨rfl, by decide⟩

/-- Claim C2 (amended): for every perishable shipment, whenever the disruption
duration exceeds 48 hours, alternatives exist and the operator allows
rerouting, `make_decision` returns REROUTE with the reason "Perishable cargo
requires immediate rerouting to prevent spoilage" (capital P), regardless of
priority and delay tolerance — the branch precedes the priority cascade. -/
theorem c2_perishable_override (routes : List Route) (s : Shipment)
    (op : OperatorResponse) (n : Int) (current : Route)
    (hc : s.cargo_type = CargoType.perishable) (h48 : 48 < n)
    (hcur : get_route_by_id routes s.route_id = Except.ok current)
    (halts : get_alternative_routes routes current.origin s.destination [s.route_id] ≠ [])
    (hallow : op.allow_reroute = true) :
    ∃ d, make_decision routes s op (some n) = Except.ok d ∧
      d.action = ActionType.reroute ∧
      d.reasoning = "Perishable cargo requires immediate rerouting to prevent spoilage" := by
  obtain ⟨a, rs, ha⟩ := List.exists_cons_of_ne_nil halts
  have htr : dur_truthy (some n) = true := by simp [dur_truthy]; omega
  have hdv : 48 < dur_val (some n) := h48
  have hmk : make_decision routes s op (some n)
      = create_reroute_decision routes s
          (get_alternative_routes routes current.origin s.destination [s.route_id])
          "Perishable cargo requires immediate rerouting to prevent spoilage" := by
    unfold make_decision
    rw [hcur]
    show make_decision_body routes s op (some n)
        (get_alternative_routes routes current.origin s.destination [s.route_id]) = _
    unfold make_decision_body
    rw [if_pos ⟨hc, htr, hdv, halts, hallow⟩]
  rw [hmk, ha]
  simp only [create_reroute_decision]
  rw [hcur]
  exact ⟨_, rfl, rfl, rfl⟩

/-- Witness for the C2 theorem: Scenario A (priority 9, perishable, delay
tolerance 24h, duration 72h, alternative available, rerouting allowed). -/
theorem c2_perishable_override_witness :
    ∃ d, make_decision demo_routes demo_ship_perishable demo_op (some 72) = Except.ok d ∧
      d.action = ActionType.reroute ∧
      d.reasoning = "Perishable cargo requires immediate rerouting to prevent spoilage" :=
  c2_perishable_override demo_routes demo_ship_perishable demo_op 72 demo_route_1
    (by rfl) (by norm_num) (by rfl) (by decide) (by rfl)

/-- Claim C8 counterexample, two concrete violations: (1) a priority-2
*perishable* shipment with duration 200h (> 168h) is REROUTED by the
perishable override, not ESCALATED as the claim demands for priority < 4;
(2) a priority-2 standard shipment with duration 0h gets DELAY for 48 hours,
not for "exactly the given duration" 0 (the source treats a zero duration as
unspecified). -/
theorem c8_counterexample :
    ((make_decision demo_routes demo_ship_low_perishable demo_op (some 200)).map
          Decision.action = Except.ok ActionType.reroute ∧
        ActionType.reroute ≠ ActionType.escalate) ∧
    ((make_decision demo_routes demo_ship_low demo_op (some 0)).map
          Decision.estimated_delay_hours = Except.ok (some (48 : Int)) ∧
        some (48 : Int) ≠ some (0 : Int)) := by
  exact ⟨⟨rfl, by simp⟩, ⟨rfl, by simp⟩⟩

/-- Claim C8 (amended): for every shipment with priority < 4 for which the
perishable override does not fire: if the duration is specified, nonzero and
exceeds 168 hours, `make_decision` returns ESCALATE; otherwise it returns
DELAY, for the given duration when that is specified and nonzero and for 48
hours when the duration is unspecified or zero. -/
theorem c8_low_priority (routes : List Route) (s : Shipment)
    (op : OperatorResponse) (dur : Option Int) (d : Decision)
    (hp : s.priority < 4)
    (hnp : ¬ perishable_override_fires routes s op dur)
    (h : make_decision routes s op dur = Except.ok d) :
    (dur_truthy dur = true ∧ 168 < dur_val dur → d.action = ActionType.escalate) ∧
    (¬(dur_truthy dur = true ∧ 168 < dur_val dur) →
      d.action = ActionType.delay ∧
        d.estimated_delay_hours =
          some (if dur_truthy dur = true then dur_val dur else 48)) := by
  unfold make_decision at h
  cases hcur : get_route_by_id routes s.route_id with
  | error e => rw [hcur] at h; exact absurd h (by simp)
  | ok current =>
    rw [hcur] at h
    have h' : make_decision_body routes s op dur
        (get_alternative_routes routes current.origin s.destination [s.route_id])
          = Except.ok d := h
    clear h
    unfold perishable_override_fires at hnp
    rw [shipment_alternatives_eq hcur] at hnp
    unfold make_decision_body at h'
    rw [if_neg hnp, if_neg (by omega), if_neg (by omega)] at h'
    constructor
    · intro hg
      rw [if_pos hg] at h'
      have hd := (Except.ok.inj h').symm
      subst hd
      rfl
    · intro hg
      rw [if_neg hg] at h'
      have hd := (Except.ok.inj h').symm
      subst hd
      exact ⟨rfl, rfl⟩

/-- Witness for the C8 theorem: Scenario B (priority 2, standard cargo,
duration 10h) yields DELAY for 10 hours. -/
theorem c8_low_priority_witness :
    (dur_truthy (some 10) = true ∧ 168 < dur_val (some 10) →
      demo_low_delay_decision.action = ActionType.escalate) ∧
    (¬(dur_truthy (some 10) = true ∧ 168 < dur_val (some 10)) →
      demo_low_delay_decision.action = ActionType.delay ∧
        demo_low_delay_decision.estimated_delay_hours =
          some (if dur_truthy (some 10) = true then dur_val (some 10) else 48)) :=
  c8_low_priority demo_routes demo_ship_low demo_op (some 10) demo_low_delay_decision
    (by norm_num [demo_ship_low])
    (fun hf => absurd hf.1 (by decide))
    (by rfl)

/-- Claim C9: whenever `make_decision` returns REROUTE, the candidate list is
exactly the active catalog routes matching the current route's origin and
the shipment's destination with the current route excluded; the chosen
alternative is the first candidate (in catalog order) attaining the minimum
estimated transit days; the estimated cost impact is
`max(0, altDays − currentDays) × 10.0` percent; and the estimated delay is
that day difference × 24 hours. -/
theorem c9_reroute_selection (routes : List Route) (s : Shipment)
    (op : OperatorResponse) (dur : Option Int) (d : Decision)
    (h : make_decision routes s op dur = Except.ok d)
    (ha : d.action = ActionType.reroute) :
    ∃ current a rs,
      get_route_by_id routes s.route_id = Except.ok current ∧
      get_alternative_routes routes current.origin s.destination [s.route_id]
        = a :: rs ∧
      (∀ r, r ∈ a :: rs ↔
        r ∈ routes ∧ r.origin = current.origin ∧ r.destination = s.destination ∧
          ¬ r.id = s.route_id ∧ r.is_active = true) ∧
      best_alt a rs ∈ a :: rs ∧
      (∀ r ∈ a :: rs, (best_alt a rs).estimated_days ≤ r.estimated_days) ∧
      (a :: rs).find? (fun r => r.estimated_days == (best_alt a rs).estimated_days)
        = some (best_alt a rs) ∧
      d.alternative_route_id = some (best_alt a rs).id ∧
      d.estimated_cost_impact =
        some (((max 0 ((best_alt a rs).estimated_days - current.estimated_days) :
          Int) : ℚ) * 10) ∧
      d.estimated_delay_hours =
        some (max 0 ((best_alt a rs).estimated_days - current.estimated_days) * 24) := by
  obtain ⟨current, hcur, hcase⟩ := make_decision_shape h
  rcases hcase with ⟨reason, hre⟩ | ⟨k, reason, hd⟩ | ⟨reason, hd⟩
  · obtain ⟨a, rs, cur2, halts, hcur2, hd⟩ := create_reroute_decision_ok hre
    obtain rfl : current = cur2 := Except.ok.inj (hcur.symm.trans hcur2)
    subst hd
    refine ⟨current, a, rs, hcur, halts, ?_, best_alt_mem a rs, best_alt_le a rs,
      best_alt_first a rs, rfl, rfl, rfl⟩
    intro r
    rw [← halts, mem_get_alternative_routes]
    simp
  · subst hd
    exact absurd ha (by simp [create_delay_decision])
  · subst hd
    exact absurd ha (by simp [create_escalate_decision])

/-- Placeholder decision used as the (unreachable) fallback of concrete
projections. -/
def blank_decision : Decision :=
  { shipment_id := "", action := ActionType.escalate, reasoning := "",
    confidence_score := 0 }

/-- Decision produced for the C9 witness scenario (priority-8 tolerance-24
shipment, zero duration, one alternative): REROUTE onto `ROUTE-002` with
cost impact 10% and delay 24h. -/
def demo_reroute_decision : Decision :=
  match make_decision demo_routes demo_ship_high demo_op (some 0) with
  | Except.ok d => d
  | Except.error _ => blank_decision

/-- Witness for C9 at a concrete input. -/
theorem c9_reroute_selection_witness :
    ∃ current a rs,
      get_route_by_id demo_routes demo_ship_high.route_id = Except.ok current ∧
      get_alternative_routes demo_routes current.origin demo_ship_high.destination
        [demo_ship_high.route_id] = a :: rs ∧
      (∀ r, r ∈ a :: rs ↔
        r ∈ demo_routes ∧ r.origin = current.origin ∧
          r.destination = demo_ship_high.destination ∧
          ¬ r.id = demo_ship_high.route_id ∧ r.is_active = true) ∧
      best_alt a rs ∈ a :: rs ∧
      (∀ r ∈ a :: rs, (best_alt a rs).estimated_days ≤ r.estimated_days) ∧
      (a :: rs).find? (fun r => r.estimated_days == (best_alt a rs).estimated_days)
        = some (best_alt a rs) ∧
      demo_reroute_decision.alternative_route_id = some (best_alt a rs).id ∧
      demo_reroute_decision.estimated_cost_impact =
        some (((max 0 ((best_alt a rs).estimated_days - current.estimated_days) :
          Int) : ℚ) * 10) ∧
      demo_reroute_decision.estimated_delay_hours =
        some (max 0 ((best_alt a rs).estimated_days - current.estimated_days) * 24) :=
  c9_reroute_selection demo_routes demo_ship_high demo_op (some 0)
    demo_reroute_decision (by rfl) (by rfl)

/-- The severity-score formula exactly as the specification states it:
`base(severity) × shipmentMultiplier × priorityMultiplier` capped at 10.0,
with base low=2.0, medium=5.0, high=7.5, critical=9.0 (default 5.0),
shipmentMultiplier 1.5 above 10 shipments, 1.3 above 5, else 1.0, and
priorityMultiplier `1.0 + 0.1 × highPriorityCount` when the count is
positive. -/
def severity_score_spec (severity : String)
    (shipment_count high_priority_count : Nat) : ℚ :=
  let base : ℚ :=
    if severity.toLower = "low" then 2
    else if severity.toLower = "medium" then 5
    else if severity.toLower = "high" then 15/2
    else if severity.toLower = "critical" then 9
    else 5
  let shipment_multiplier : ℚ :=
    if 10 < shipment_count then 3/2 else if 5 < shipment_count then 13/10 else 1
  let priority_multiplier : ℚ :=
    if 0 < high_priority_count then 1 + (1/10) * (high_priority_count : ℚ) else 1
  min (base * shipment_multiplier * priority_multiplier) 10

/-- Claim C3: the computed severity score equals the specification's formula
`base(severity) × shipmentMultiplier × priorityMultiplier` capped at 10.0,
and it always lies in the interval [0, 10]. -/
theorem c3_severity_score (d : Disruption) (ships : List Shipment) (hp : Nat) :
    calculate_severity_score d ships hp
        = severity_score_spec d.severity ships.length hp ∧
      0 ≤ calculate_severity_score d ships hp ∧
      calculate_severity_score d ships hp ≤ 10 := by
  refine ⟨?_, ?_, ?_⟩
  · unfold calculate_severity_score severity_score_spec
    simp only [mul_comm]
  · unfold calculate_severity_score
    refine le_min ?_ (by norm_num)
    split_ifs <;> positivity
  · unfold calculate_severity_score
    exact min_le_right _ _

/-- The route-matching rule as the specification states it: the route's
origin appears as a substring of the disruption's location text, or its
destination does, or the location text appears inside the route's name, or
some via-point appears as a substring of the location, or the special rule
fires: "Pacific" occurs in the location and the route has a via-point
literally named "Pacific Ocean".  (Substring containment is case-sensitive.) -/
def route_affected_spec (route : Route) (location : String) : Prop :=
  route.origin.data <:+: location.data ∨
  route.destination.data <:+: location.data ∨
  location.data <:+: route.name.data ∨
  (∃ p ∈ route.via_points, p.data <:+: location.data) ∨
  (("Pacific" : String).data <:+: location.data ∧ "Pacific Ocean" ∈ route.via_points)

theorem route_affected_iff (route : Route) (location : String) :
    route_affected route location = true ↔ route_affected_spec route location := by
  have hsub : ∀ a b : String, substr_in a b = true ↔ a.data <:+: b.data := by
    intro a b; simp [substr_in]
  have hmem : ∀ (l : List String) (x : String), l.contains x = true ↔ x ∈ l := by
    intro l x; simp
  unfold route_affected route_affected_spec
  dsimp only
  by_cases hpac : (substr_in "Pacific" location &&
      route.via_points.contains "Pacific Ocean") = true
  · rw [if_pos hpac]
    have h1 := (Bool.and_eq_true _ _).mp hpac
    simp only [Bool.or_true, true_iff]
    exact Or.inr (Or.inr (Or.inr (Or.inr
      ⟨(hsub _ _).mp h1.1, (hmem _ _).mp h1.2⟩)))
  · rw [if_neg hpac]
    simp only [Bool.and_eq_true, hsub, hmem] at hpac
    simp only [Bool.or_eq_true, List.any_eq_true, hsub, hmem]
    constructor
    · rintro (((h | h) | h) | h)
      · exact Or.inl h
      · exact Or.inr (Or.inl h)
      · exact Or.inr (Or.inr (Or.inl h))
      · exact Or.inr (Or.inr (Or.inr (Or.inl h)))
    · rintro (h | h | h | h | h)
      · exact Or.inl (Or.inl (Or.inl h))
      · exact Or.inl (Or.inl (Or.inr h))
      · exact Or.inl (Or.inr h)
      · exact Or.inr h
      · exact absurd h hpac

/-- Claim C7: a route is classified as affected exactly under the spec's textual
rule, and a shipment is affected exactly when its route id is among the
affected-route ids. -/
theorem c7_route_matching (routes : List Route) (ships : List Shipment)
    (d : Disruption) :
    (∀ r, r ∈ affected_routes routes d ↔
      r ∈ routes ∧ route_affected_spec r d.location) ∧
    (∀ s, s ∈ affected_shipments routes ships d ↔
      s ∈ ships ∧ s.route_id ∈ affected_route_ids routes d) := by
  constructor
  · intro r
    unfold affected_routes
    rw [List.mem_filter, route_affected_iff]
  · intro s
    unfold affected_shipments
    rw [List.mem_filter]
    simp

theorem decisions_loop_ok {routes : List Route} {op : OperatorResponse} {dur : Int} :
    ∀ {l : List Shipment} {ds : List Decision},
      decisions_loop routes op dur l = Except.ok ds →
      List.Forall₂ (fun s d => make_decision routes s op (some dur) = Except.ok d) l ds := by
  intro l
  induction l with
  | nil =>
    intro ds h
    simp only [decisions_loop, Except.ok.injEq] at h
    subst h
    exact List.Forall₂.nil
  | cons s rest ih =>
    intro ds h
    unfold decisions_loop at h
    cases hm : make_decision routes s op (some dur) with
    | error e => rw [hm] at h; exact absurd h (by simp)
    | ok d =>
      rw [hm] at h
      cases hl : decisions_loop routes op dur rest with
      | error e => rw [hl] at h; exact absurd h (by simp)
      | ok ds' =>
        rw [hl] at h
        simp only [Except.ok.injEq] at h
        subst h
        exact List.Forall₂.cons hm (ih hl)

theorem decisions_loop_error {routes : List Route} {op : OperatorResponse} {dur : Int} :
    ∀ {l : List Shipment} {e : String},
      decisions_loop routes op dur l = Except.error e →
      ∃ l₁ s l₂, l = l₁ ++ s :: l₂ ∧
        (∀ s' ∈ l₁, ∃ d, make_decision routes s' op (some dur) = Except.ok d) ∧
        make_decision routes s op (some dur) = Except.error e := by
  intro l
  induction l with
  | nil =>
    intro e h
    exact absurd h (by simp [decisions_loop])
  | cons s rest ih =>
    intro e h
    unfold decisions_loop at h
    cases hm : make_decision routes s op (some dur) with
    | error e' =>
      rw [hm] at h
      simp only [Except.error.injEq] at h
      subst h
      exact ⟨[], s, rest, rfl, by simp, hm⟩
    | ok d =>
      rw [hm] at h
      cases hl : decisions_loop routes op dur rest with
      | error e' =>
        rw [hl] at h
        simp only [Except.error.injEq] at h
        subst h
        obtain ⟨l₁, s', l₂, heq, hall, herr⟩ := ih hl
        refine ⟨s :: l₁, s', l₂, by rw [heq]; simp, ?_, herr⟩
        intro x hx
        rcases List.mem_cons.mp hx with hx1 | hx1
        · subst hx1; exact ⟨d, hm⟩
        · exact hall x hx1
      | ok ds' => rw [hl] at h; exact absurd h (by simp)

/-- Claim C6: `process_disruption_decisions` applies `make_decision` independently
to every input shipment, returning exactly one Decision per shipment in
input order (captured by `List.Forall₂`, which forces equal lengths and
pointwise correspondence, so nothing is skipped, reordered or deduplicated);
and when some shipment's route fails to resolve, the error raised by the
first failing shipment (all earlier ones having succeeded) is propagated and
no list is returned. -/
theorem c6_process_decisions (routes : List Route) (disruption_id : String)
    (shipments : List Shipment) (op : OperatorResponse) (dur : Int) :
    (∀ ds, process_disruption_decisions routes disruption_id shipments op dur
        = Except.ok ds →
      ds.length = shipments.length ∧
      List.Forall₂ (fun s d => make_decision routes s op (some dur) = Except.ok d)
        shipments ds) ∧
    (∀ e, process_disruption_decisions routes disruption_id shipments op dur
        = Except.error e →
      (∃ l₁ s l₂, shipments = l₁ ++ s :: l₂ ∧
        (∀ s' ∈ l₁, ∃ d, make_decision routes s' op (some dur) = Except.ok d) ∧
        make_decision routes s op (some dur) = Except.error e) ∧
      ∀ ds, process_disruption_decisions routes disruption_id shipments op dur
        ≠ Except.ok ds) := by
  constructor
  · intro ds h
    have hf := decisions_loop_ok h
    exact ⟨hf.length_eq.symm, hf⟩
  · intro e h
    refine ⟨decisions_loop_error h, ?_⟩
    intro ds hds
    rw [h] at hds
    exact absurd hds (by simp)

/-- Witness for C6: a one-shipment list (Scenario B) produces exactly one
Decision in order. -/
theorem c6_process_decisions_witness :
    ([demo_low_delay_decision] : List Decision).length
        = ([demo_ship_low] : List Shipment).length ∧
      List.Forall₂
        (fun s d => make_decision demo_routes s demo_op (some 10) = Except.ok d)
        [demo_ship_low] [demo_low_delay_decision] :=
  (c6_process_decisions demo_routes "DIS-001" [demo_ship_low] demo_op 10).1
    [demo_low_delay_decision] (by rfl)

theorem create_action_ticket_unique {routes : List Route} {ships : List Shipment}
    {dis : String} {dec : Decision} {op : String} {db : List ActionTicketDB}
    (hu : ticket_pairs_unique db) :
    ticket_pairs_unique (create_action_ticket routes ships dis dec op db).2 := by
  unfold create_action_ticket
  cases hfind : db.find? (fun u =>
      u.shipment_id == dec.shipment_id && u.disruption_id == dis) with
  | some existing_ticket => exact hu
  | none =>
    cases hship : get_shipment_by_id ships dec.shipment_id with
    | error e => exact hu
    | ok shipment =>
      cases hexp : generate_explanation routes ships dec with
      | error e => exact hu
      | ok explanation =>
        dsimp only
        unfold ticket_pairs_unique at hu ⊢
        rw [List.pairwise_append]
        refine ⟨hu, by simp, ?_⟩
        intro a ha b hb
        simp only [List.mem_singleton] at hb
        subst hb
        have hnp := List.find?_eq_none.mp hfind a ha
        simp only [Bool.and_eq_true, beq_iff_eq, not_and] at hnp
        rintro ⟨hdis, hship2⟩
        exact hnp hship2 hdis

/-- The ticket store after the first (raising) create of the concrete C4/C5
run: one committed row. -/
def c4_demo_db1 : List ActionTicketDB :=
  (create_action_ticket demo_routes demo_shipments "DIS-001"
      demo_low_delay_decision "op-1" []).2

/-- Claim C4 (code bug): the claim — like the service's own docstring and
its `decision=None  # Decision object not stored in DB` comment — describes
an idempotent create that returns the created or the existing ticket.  The
code cannot do this: `ticket_db_to_model` passes `decision=None` into the
required field `decision: Decision` of `models.ActionTicket`, so the
conversion raises on every call.  This theorem evaluates the code at the
failing input: the first create on the empty store *commits* the row
(`db.add`/`db.commit` precede the conversion) and then raises the
validation error instead of returning `TICKET-001`, and the duplicate-pair
call raises the same error while leaving the store unchanged.  The
store-level half of the claim survives: after any sequence of create calls
the store holds at most one record per (disruption id, shipment id) pair. -/
theorem c4_ticket_create_validation_bug :
    ((create_action_ticket demo_routes demo_shipments "DIS-001"
        demo_low_delay_decision "op-1" []).1
      = Except.error
          "1 validation error for ActionTicket: decision none is not an allowed value") ∧
    (c4_demo_db1.map (fun t => (t.id, t.disruption_id, t.shipment_id, t.status))
      = [("TICKET-001", "DIS-001", "SHIP-003", "pending")]) ∧
    (create_action_ticket demo_routes demo_shipments "DIS-001"
        demo_low_delay_decision "op-1" c4_demo_db1
      = (Except.error
          "1 validation error for ActionTicket: decision none is not an allowed value",
          c4_demo_db1)) ∧
    (∀ (routes : List Route) (ships : List Shipment)
        (calls : List (String × Decision × String)),
      ticket_pairs_unique (run_creates routes ships calls [])) := by
  refine ⟨rfl, rfl, rfl, ?_⟩
  intro routes ships calls
  have hstep : ∀ (cs : List (String × Decision × String)) (db : List ActionTicketDB),
      ticket_pairs_unique db → ticket_pairs_unique (run_creates routes ships cs db) := by
    intro cs
    induction cs with
    | nil => intro db hu; exact hu
    | cons c rest ih =>
      intro db hu
      unfold run_creates
      exact ih _ (create_action_ticket_unique hu)
  exact hstep calls [] List.Pairwise.nil

theorem set_ticket_status_self {st : String} :
    ∀ {db : List ActionTicketDB} {tid : String} {t : ActionTicketDB},
      db.find? (fun u => u.id == tid) = some t → t.status = st →
      set_ticket_status db tid st = db := by
  intro db
  induction db with
  | nil => intro tid t hf; simp at hf
  | cons a l ih =>
    intro tid t hf hst
    by_cases hpa : (a.id == tid) = true
    · rw [@List.find?_cons_of_pos _ (fun u => u.id == tid) a l hpa] at hf
      obtain rfl : a = t := Option.some.inj hf
      unfold set_ticket_status
      rw [if_pos hpa, ← hst]
    · rw [@List.find?_cons_of_neg _ (fun u => u.id == tid) a l (by simpa using hpa)] at hf
      unfold set_ticket_status
      rw [if_neg hpa, ih hf hst]

/-- The committed ticket statuses along the concrete run used as the C5
counterexample: create a ticket (committed with status "pending"), request
a transition to "approved", then a transition back to "pending", reading
the stored status after each of the two transitions.  Each of the three
calls raises during response conversion, but every commit precedes its
raise, so the store advances. -/
def c5_demo_chain : Option (String × String) :=
  let db1 := (create_action_ticket demo_routes demo_shipments "DIS-001"
      demo_low_delay_decision "op-1" []).2
  match db1 with
  | t :: _ =>
    let db2 := (update_ticket_status t.id "approved" db1).2
    let db3 := (update_ticket_status t.id "pending" db2).2
    match db2, db3 with
    | u :: _, v :: _ => some (u.status, v.status)
    | _, _ => none
  | [] => none

/-- Claim C5 counterexample: starting from an empty store, create a ticket
(committed as "pending"), transition it to "approved", then request a
transition to "pending": the overwrite is committed and the stored status
is "pending" again — a reachable sequence of status-transition operations
that moves a ticket's status back to pending, which the claim forbids.
The second conjunct refutes the "re-applying ... is a no-op success" half
as well: a transition on an existing ticket never returns a ticket — the
call raises the `decision` validation error (after committing). -/
theorem c5_counterexample :
    c5_demo_chain = some ("approved", "pending") ∧
    (update_ticket_status "TICKET-001" "pending"
        (update_ticket_status "TICKET-001" "approved" c4_demo_db1).2).1
      = some (Except.error
          "1 validation error for ActionTicket: decision none is not an allowed value") :=
  ⟨rfl, rfl⟩

/-- Claim C5 (amended): a status transition on an existing ticket commits an
unconditional overwrite of the stored status with the requested value — any
value from any current status, including back to "pending" — and then
raises a validation error while converting the updated row for the
response (`decision=None` for the required `ActionTicket.decision` field)
instead of returning the ticket; re-applying the current status likewise
commits (leaving the store unchanged) and raises; a transition on an
unknown ticket id returns NotFound without touching the store. -/
theorem c5_status_transitions (db : List ActionTicketDB) (tid st : String) :
    (db.find? (fun u => u.id == tid) = none →
      update_ticket_status tid st db = (none, db)) ∧
    (∀ t, db.find? (fun u => u.id == tid) = some t →
      update_ticket_status tid st db
          = (some (ticket_db_to_model { t with status := st }),
              set_ticket_status db tid st) ∧
        ({ t with status := st } : ActionTicketDB).status = st ∧
        (∃ e, ticket_db_to_model { t with status := st } = Except.error e) ∧
        (t.status = st → set_ticket_status db tid st = db)) := by
  constructor
  · intro hf
    unfold update_ticket_status
    rw [hf]
  · intro t hf
    refine ⟨?_, rfl, ticket_db_to_model_raises _,
      fun hst => set_ticket_status_self hf hst⟩
    unfold update_ticket_status
    rw [hf]

/-- The single row of the C4/C5 witness store. -/
def c5_demo_row : ActionTicketDB :=
  match c4_demo_db1 with
  | t :: _ => t
  | [] =>
    { id := "", disruption_id := "", shipment_id := "", action_type := "",
      explanation := "", destination := "", estimated_delay := none,
      priority := "", created_by := "", status := "", notes := none }

/-- Witness for the C5 theorem: transitioning the freshly created (pending)
Scenario-B ticket to "approved" commits the overwrite to the store and
raises during the response conversion. -/
theorem c5_status_transitions_witness :
    update_ticket_status "TICKET-001" "approved" c4_demo_db1
        = (some (ticket_db_to_model { c5_demo_row with status := "approved" }),
            set_ticket_status c4_demo_db1 "TICKET-001" "approved") ∧
      ({ c5_demo_row with status := "approved" } : ActionTicketDB).status
        = "approved" ∧
      (∃ e, ticket_db_to_model { c5_demo_row with status := "approved" }
        = Except.error e) ∧
      (c5_demo_row.status = "approved" →
        set_ticket_status c4_demo_db1 "TICKET-001" "approved" = c4_demo_db1) :=
  (c5_status_transitions c4_demo_db1 "TICKET-001" "approved").2 c5_demo_row (by rfl)

end Taskify
